import Mathlib

/-!
Shallow embedding of `pymic/offload_array.py` (the `OffloadArray` class) and
proofs about its behaviour.  Python values are modelled as follows: machine
integers are `Int` (Python ints are unbounded), numpy dtypes are a tag type,
numpy arrays are a buffer identifier plus shape and dtype, exceptions are an
explicit error type threaded through `Except`, and every interaction with the
external `OffloadStream` (buffer allocation/release, host/device transfer,
kernel invocation, binding) is recorded as an event in an ordered trace that
each operation returns alongside its result.
-/

namespace PyMIC

/-- Python exceptions that the embedded code can raise. -/
inductive PyErr : Type where
  | valueError (msg : String)
  | typeError (msg : String)
  | assertionError
  | attributeError (attr : String)
  | nameError (missing : String)
deriving DecidableEq, Repr

/-- Model of a numpy dtype: the three tags the code compares against
(`int`, `float`, `complex`) plus any other dtype, carrying its item size. -/
inductive DType : Type where
  | dint
  | dfloat
  | dcomplex
  | other (tag : String) (isize : Nat)
deriving DecidableEq, Repr

/-- `numpy.dtype.itemsize`: width in bytes of one element. -/
def DType.itemsize : DType → Nat
  | .dint => 8
  | .dfloat => 8
  | .dcomplex => 16
  | .other _ isize => isize

/-- A Python scalar value: its runtime type (`type(x)`) and a payload. -/
structure Scalar : Type where
  ty : DType
  val : Int
deriving DecidableEq, Repr

/-- Model of a `numpy.ndarray`: an identifier of the underlying memory
buffer, the shape, and the dtype. -/
structure NDArray : Type where
  bufId : Nat
  shape : List Int
  dtype : DType
deriving DecidableEq, Repr

/-- `numpy.ndarray.reshape`: a view over the same buffer with a new shape. -/
def NDArray.reshape (a : NDArray) (shape : List Int) : NDArray :=
  { a with shape := shape }

/-- Model of an `OffloadStream`: an identity and the device it is bound to
(`get_device()` is modelled by the device identifier). -/
structure Stream : Type where
  id : Nat
  deviceId : Nat
deriving DecidableEq, Repr

/-- Python `size = 1; for d in shape: size *= d` (a left fold starting at 1). -/
def pyProd (l : List Int) : Int :=
  l.foldl (fun size d => size * d) 1

/-- The `shape` argument of `OffloadArray.__init__`: either a single integer
or a tuple of integers (the `try`/`except TypeError` branch in the source). -/
inductive ShapeArg : Type where
  | int (n : Int)
  | tuple (l : List Int)
deriving DecidableEq, Repr

/-- Modelled from the spec: `_map_data_types` from `_misc.py` is not part of
the sources; per the spec it computes the fixed data-type tag of the dispatch
encoding for an element type (the source's `__abs__` shows complex maps
to 2). -/
def map_data_types : DType → Nat
  | .dint => 0
  | .dfloat => 1
  | .dcomplex => 2
  | .other _ _ => 3

/-- The state of an `OffloadArray` handle after construction.  `base` is the
optional back reference to the handle a view was reshaped from; `array` is
the host mirror (`None` until assigned); `library` records which native
kernel library was selected (`_offload_libraries[device.device_id]`, keyed by
the device identifier). -/
inductive OffloadArray : Type where
  | mk (order : String) (dtype : DType) (base : Option OffloadArray)
      (device : Nat) (stream : Stream) (size : Int) (shape : List Int)
      (nbytes : Int) (array : Option NDArray) (library : Nat) : OffloadArray

def OffloadArray.order : OffloadArray → String
  | .mk o _ _ _ _ _ _ _ _ _ => o

def OffloadArray.dtype : OffloadArray → DType
  | .mk _ d _ _ _ _ _ _ _ _ => d

def OffloadArray.base : OffloadArray → Option OffloadArray
  | .mk _ _ b _ _ _ _ _ _ _ => b

def OffloadArray.device : OffloadArray → Nat
  | .mk _ _ _ dev _ _ _ _ _ _ => dev

def OffloadArray.stream : OffloadArray → Stream
  | .mk _ _ _ _ st _ _ _ _ _ => st

def OffloadArray.size : OffloadArray → Int
  | .mk _ _ _ _ _ sz _ _ _ _ => sz

def OffloadArray.shape : OffloadArray → List Int
  | .mk _ _ _ _ _ _ sh _ _ _ => sh

def OffloadArray.nbytes : OffloadArray → Int
  | .mk _ _ _ _ _ _ _ nb _ _ => nb

def OffloadArray.array : OffloadArray → Option NDArray
  | .mk _ _ _ _ _ _ _ _ a _ => a

def OffloadArray.library : OffloadArray → Nat
  | .mk _ _ _ _ _ _ _ _ _ lib => lib

/-- The right-hand operand of a binary operation, classified the way the
source's `isinstance` chain classifies it: another `OffloadArray`, a
`numpy.ndarray`, or a scalar. -/
inductive Operand : Type where
  | offl (o : OffloadArray)
  | nda (a : NDArray)
  | scalar (s : Scalar)

/-- The value passed as the `y` argument of a binary kernel invocation. -/
inductive YOperand : Type where
  | arr (a : Option NDArray)
  | nda (a : NDArray)
  | scal (s : Scalar)

/-- One interaction with the external `OffloadStream`, recorded in order. -/
inductive Event : Type where
  | bufferAllocate (st : Stream) (a : NDArray)
  | bufferRelease (st : Stream) (a : Option NDArray)
  | bufferUpdateOnTarget (st : Stream) (a : Option NDArray)
  | bufferUpdateOnHost (st : Stream) (a : Option NDArray)
  | bindArray (st : Stream) (a : NDArray)
  | invokeBinary (kernel : String) (dt : Nat) (n : Int) (x : Option NDArray)
      (incx : Int) (y : YOperand) (incy : Int) (r : Option NDArray) (incr : Int)
  | invokeFill (dt : Nat) (n : Int) (x : OffloadArray) (value : Scalar)
  | invokeSetslice (dt : Nat) (lb ub : Int) (dst : OffloadArray)
      (src : OffloadArray)

/-- `OffloadArray.__init__`.  Mirrors the source line by line: the two
`assert`s on `device` and `stream`, the size/shape normalisation
(`try`/`except TypeError`), `nbytes = itemsize * size`, the view path
(`base.array.reshape(shape)`), the owner path (`numpy.empty` followed by
`stream._buffer_allocate`), and the kernel-library selection.  `freshBuf`
identifies the newly allocated host buffer in the owner path. -/
def OffloadArray.init (shape : ShapeArg) (dtype : DType) (order : String)
    (alloc_arr : Bool) (base : Option OffloadArray) (device : Option Nat)
    (stream : Option Stream) (freshBuf : Nat) :
    List Event × Except PyErr OffloadArray :=
  match device with
  | none => ([], .error .assertionError)
  | some dev =>
    match stream with
    | none => ([], .error .assertionError)
    | some st =>
      let sizeShape : Int × List Int :=
        match shape with
        | .tuple l => (pyProd l, l)
        | .int n => (n, [n])
      let size := sizeShape.1
      let shp := sizeShape.2
      let nbytes : Int := (dtype.itemsize : Int) * size
      match base with
      | some b =>
        match b.array with
        | none => ([], .error (.attributeError "reshape"))
        | some barr =>
          ([], .ok (.mk order dtype (some b) dev st size shp nbytes
            (some (barr.reshape shp)) dev))
      | none =>
        if alloc_arr then
          let arr : NDArray := { bufId := freshBuf, shape := shp, dtype := dtype }
          ([.bufferAllocate st arr],
           .ok (.mk order dtype none dev st size shp nbytes (some arr) dev))
        else
          ([], .ok (.mk order dtype none dev st size shp nbytes none dev))

/-- `OffloadArray.__del__`: release the device buffer through the stream
if and only if this handle has no base. -/
def OffloadArray.del (self : OffloadArray) : List Event :=
  match self.base with
  | none => [.bufferRelease self.stream self.array]
  | some _ => []

/-- `OffloadArray.update_device`: enqueue a host-to-device copy and return
`None`. -/
def OffloadArray.update_device (self : OffloadArray) :
    List Event × Option OffloadArray :=
  ([.bufferUpdateOnTarget self.stream self.array], none)

/-- `OffloadArray.update_host`: enqueue a device-to-host copy and return
`self`. -/
def OffloadArray.update_host (self : OffloadArray) :
    List Event × Option OffloadArray :=
  ([.bufferUpdateOnHost self.stream self.array], some self)

/-- Replace the `stream` attribute, leaving every other attribute intact. -/
def OffloadArray.setStream : OffloadArray → Stream → OffloadArray
  | .mk o d b dev _ sz sh nb a lib, st => .mk o d b dev st sz sh nb a lib

/-- Error message of `assign_stream` (the source formats both devices into
the message; the static text is kept). -/
def deviceMismatchMsg : String := "Cannot assign a stream from different device"

/-- `OffloadArray.assign_stream`: reject a stream bound to a different
device, otherwise rebind `self.stream`. -/
def OffloadArray.assign_stream (self : OffloadArray) (stream : Stream) :
    List Event × Except PyErr OffloadArray :=
  if stream.deviceId ≠ self.device then
    ([], .error (.valueError deviceMismatchMsg))
  else
    ([], .ok (self.setStream stream))

/-- Error message of `reshape` for a size mismatch. -/
def reshapeSizeMsg : String := "total size of reshaped array must be unchanged"

/-- `OffloadArray.reshape`, after the argument normalisation that turns the
varargs (one tuple/list, or several integers) into a tuple of integers:
recompute the size, reject a changed total size, and construct a view handle
(`alloc_arr = False`, `base = self`, `device = self.device`) — the
constructor call passes no `stream` argument, so `stream` keeps its default
of `None`. -/
def OffloadArray.reshape (self : OffloadArray) (shape : List Int) :
    List Event × Except PyErr OffloadArray :=
  let size := pyProd shape
  if size ≠ self.size then
    ([], .error (.valueError reshapeSizeMsg))
  else
    OffloadArray.init (.tuple shape) self.dtype self.order false (some self)
      (some self.device) none 0

/-- `OffloadArray.ravel`: `reshape(self.size)`, i.e. a single-integer shape
that the varargs handling turns into the 1-tuple `(self.size,)`. -/
def OffloadArray.ravel (self : OffloadArray) :
    List Event × Except PyErr OffloadArray :=
  self.reshape [self.size]

/-- Static text of the shape-mismatch message of the binary operators (the
source formats both shapes into the message). -/
def shapeMismatchMsg : String := "shapes of the arrays need to match"

/-- Static text of the dtype-mismatch message of the binary operators and of
`fill` (the source formats both types into the message). -/
def typeMismatchMsg : String := "Data types do not match"

/-- Common body of `__add__`, `__sub__`, `__mul__` and `__pow__` (the four
methods are textually identical up to the kernel entry point and the
punctuation of the shape message): compute the dispatch encoding, validate
shape then dtype of an array-like right operand (or the runtime type of a
scalar), allocate the result handle
`OffloadArray(self.shape, self.dtype, device=self.device, stream=self.stream)`
and enqueue the kernel invocation. -/
def OffloadArray.binop (kernel : String) (self : OffloadArray)
    (other : Operand) (freshBuf : Nat) :
    List Event × Except PyErr OffloadArray :=
  let dt := map_data_types self.dtype
  let n := self.size
  let x := self.array
  let incx : Int := 1
  let checked : Except PyErr (YOperand × Int × Int) :=
    match other with
    | .offl o =>
      match x, o.array with
      | none, _ => .error (.attributeError "shape")
      | some _, none => .error (.attributeError "shape")
      | some sx, some oa =>
        if sx.shape ≠ oa.shape then .error (.valueError shapeMismatchMsg)
        else if self.dtype ≠ o.dtype then .error (.valueError typeMismatchMsg)
        else .ok (.arr o.array, 1, 1)
    | .nda a =>
      match x with
      | none => .error (.attributeError "shape")
      | some sx =>
        if sx.shape ≠ a.shape then .error (.valueError shapeMismatchMsg)
        else if self.dtype ≠ a.dtype then .error (.valueError typeMismatchMsg)
        else .ok (.nda a, 1, 1)
    | .scalar s =>
      if self.dtype ≠ s.ty then .error (.valueError typeMismatchMsg)
      else .ok (.scal s, 0, 1)
  match checked with
  | .error e => ([], .error e)
  | .ok (y, incy, incr) =>
    match OffloadArray.init (.tuple self.shape) self.dtype "C" true none
        (some self.device) (some self.stream) freshBuf with
    | (evs, .error e) => (evs, .error e)
    | (evs, .ok result) =>
      (evs ++ [.invokeBinary kernel dt n x incx y incy result.array incr],
       .ok result)

/-- `OffloadArray.__add__`. -/
def OffloadArray.add (self : OffloadArray) (other : Operand) (freshBuf : Nat) :
    List Event × Except PyErr OffloadArray :=
  self.binop "pymic_offload_array_add" other freshBuf

/-- `OffloadArray.__sub__`. -/
def OffloadArray.sub (self : OffloadArray) (other : Operand) (freshBuf : Nat) :
    List Event × Except PyErr OffloadArray :=
  self.binop "pymic_offload_array_sub" other freshBuf

/-- `OffloadArray.__mul__`. -/
def OffloadArray.mul (self : OffloadArray) (other : Operand) (freshBuf : Nat) :
    List Event × Except PyErr OffloadArray :=
  self.binop "pymic_offload_array_mul" other freshBuf

/-- `OffloadArray.__pow__`. -/
def OffloadArray.pow (self : OffloadArray) (other : Operand) (freshBuf : Nat) :
    List Event × Except PyErr OffloadArray :=
  self.binop "pymic_offload_array_pow" other freshBuf

/-- `OffloadArray.fill`: reject a value whose runtime type differs from the
dtype, otherwise enqueue the fill kernel over all `size` elements (the
source passes the handle itself as the `x` argument) and return `self`. -/
def OffloadArray.fill (self : OffloadArray) (value : Scalar) :
    List Event × Except PyErr OffloadArray :=
  if self.dtype ≠ value.ty then
    ([], .error (.valueError typeMismatchMsg))
  else
    let dt := map_data_types self.dtype
    let n := self.size
    ([.invokeFill dt n self value], .ok self)

/-- Message of `zero` for a dtype with no known zero representation (the
source formats the dtype into it). -/
def zeroUnsupportedMsg : String := "Do not know representation of zero for type"

/-- `OffloadArray.zero`: pick the additive identity for `int`, `float` or
`complex` dtypes, reject any other dtype, then delegate to `fill`. -/
def OffloadArray.zero (self : OffloadArray) (zero_value : Option Scalar) :
    List Event × Except PyErr OffloadArray :=
  match zero_value with
  | some v => self.fill v
  | none =>
    match self.dtype with
    | .dint => self.fill ⟨.dint, 0⟩
    | .dfloat => self.fill ⟨.dfloat, 0⟩
    | .dcomplex => self.fill ⟨.dcomplex, 0⟩
    | .other _ _ => ([], .error (.valueError zeroUnsupportedMsg))

/-- `OffloadArray.one`: pick the multiplicative identity for `int`, `float`
or `complex` dtypes, then delegate to `fill`.  In the fallback branch the
source evaluates `format(dtype)` with the undefined name `dtype` (the
attribute is `self.dtype`), so building the error message itself raises
`NameError` before the intended `ValueError` can be raised. -/
def OffloadArray.one (self : OffloadArray) (one_value : Option Scalar) :
    List Event × Except PyErr OffloadArray :=
  match one_value with
  | some v => self.fill v
  | none =>
    match self.dtype with
    | .dint => self.fill ⟨.dint, 1⟩
    | .dfloat => self.fill ⟨.dfloat, 1⟩
    | .dcomplex => self.fill ⟨.dcomplex, 1⟩
    | .other _ _ => ([], .error (.nameError "dtype"))

/-- Modelled from the spec: `OffloadStream.bind` lives in
`offload_stream.py`, which is not among the sources; per the spec it wraps a
foreign host-resident array as a transient device-visible handle usable as a
kernel operand.  The interaction with the stream is recorded as a
`bindArray` event. -/
def Stream.bindForeign (st : Stream) (a : NDArray) :
    List Event × OffloadArray :=
  ([.bindArray st a],
   .mk "C" a.dtype none st.deviceId st (pyProd a.shape) a.shape
     ((a.dtype.itemsize : Int) * pyProd a.shape) (some a) st.deviceId)

/-- `OffloadArray.__setslice__`: clamp each bound with `min(·, self.size)`,
then dispatch the range-assignment kernel for a handle source, bind a
`numpy.ndarray` source through the stream first, and fall back to `fill`
for a scalar source.  The method returns `None` in every branch. -/
def OffloadArray.setslice (self : OffloadArray) (i j : Int)
    (sequence : Operand) : List Event × Except PyErr Unit :=
  let lb := min i self.size
  let ub := min j self.size
  let dt := map_data_types self.dtype
  match sequence with
  | .offl o =>
    ([.invokeSetslice dt lb ub self o], .ok ())
  | .nda a =>
    match self.stream.bindForeign a with
    | (bevs, offl_sequence) =>
      (bevs ++ [.invokeSetslice dt lb ub self offl_sequence], .ok ())
  | .scalar s =>
    match self.fill s with
    | (evs, r) => (evs, r.map fun _ => ())

/-- Stride flag of the right operand in the dispatch encoding: 0 for a
scalar (broadcast), 1 for an array-like operand. -/
def rightInc : Operand → Int
  | .offl _ => 1
  | .nda _ => 1
  | .scalar _ => 0

/-- A sample stream on device 0. -/
def sampleStream : Stream := ⟨0, 0⟩

/-- Host mirror of the sample owner handle. -/
def sampleHostArr : NDArray := ⟨1, [6], .dint⟩

/-- A sample owner handle: six `int` elements on device 0. -/
def sampleOwner : OffloadArray :=
  .mk "C" .dint none 0 sampleStream 6 [6] 48 (some sampleHostArr) 0

/-- A second sample owner handle of the same shape and dtype. -/
def sampleOwner2 : OffloadArray :=
  .mk "C" .dint none 0 sampleStream 6 [6] 48 (some ⟨2, [6], .dint⟩) 0

/-- A sample handle whose dtype is neither `int`, `float` nor `complex`. -/
def sampleOddDtype : OffloadArray :=
  .mk "C" (.other "uint16" 2) none 0 sampleStream 6 [6] 12
    (some ⟨3, [6], .other "uint16" 2⟩) 0

/-- The result handle produced by `sampleOwner + sampleOwner2` with fresh
buffer identifier 7. -/
def sampleAddResult : OffloadArray :=
  .mk "C" .dint none 0 sampleStream 6 [6] 48 (some ⟨7, [6], .dint⟩) 0

/-- Validation behaviour shared by the four binary operators, stated for the
common body `binop`. -/
theorem binop_validation_aux (k : String) (self : OffloadArray) (sx : NDArray)
    (hx : self.array = some sx) (hs : sx.shape = self.shape) (freshBuf : Nat) :
    (∀ (o : OffloadArray) (oa : NDArray), o.array = some oa →
      (oa.shape ≠ self.shape →
        self.binop k (.offl o) freshBuf =
          ([], .error (.valueError shapeMismatchMsg))) ∧
      (oa.shape = self.shape → o.dtype ≠ self.dtype →
        self.binop k (.offl o) freshBuf =
          ([], .error (.valueError typeMismatchMsg)))) ∧
    (∀ a : NDArray,
      (a.shape ≠ self.shape →
        self.binop k (.nda a) freshBuf =
          ([], .error (.valueError shapeMismatchMsg))) ∧
      (a.shape = self.shape → a.dtype ≠ self.dtype →
        self.binop k (.nda a) freshBuf =
          ([], .error (.valueError typeMismatchMsg)))) := by
  constructor
  · intro o oa hoa
    constructor
    · intro hne
      have hxo : sx.shape ≠ oa.shape := by
        rw [hs]; exact fun e => hne e.symm
      simp [OffloadArray.binop, hx, hoa, hxo]
    · intro heq hdt
      have hxo : sx.shape = oa.shape := by rw [hs, heq]
      have hdt' : self.dtype ≠ o.dtype := fun e => hdt e.symm
      simp [OffloadArray.binop, hx, hoa, hxo, hdt']
  · intro a
    constructor
    · intro hne
      have hxo : sx.shape ≠ a.shape := by
        rw [hs]; exact fun e => hne e.symm
      simp [OffloadArray.binop, hx, hxo]
    · intro heq hdt
      have hxo : sx.shape = a.shape := by rw [hs, heq]
      have hdt' : self.dtype ≠ a.dtype := fun e => hdt e.symm
      simp [OffloadArray.binop, hx, hxo, hdt']

/-- C2: for add, subtract, multiply and power applied to a handle whose host
mirror has the handle's shape, an array-like operand of different shape is
rejected with the shape-mismatch `ValueError` and an operand of equal shape
but different element type is rejected with the type-mismatch `ValueError`;
in both cases the operation returns with an empty event trace, so no result
handle is allocated and no kernel is enqueued on the stream. -/
theorem C2_binop_validation
    (f : OffloadArray → Operand → Nat → List Event × Except PyErr OffloadArray)
    (hf : f ∈ [OffloadArray.add, OffloadArray.sub, OffloadArray.mul,
      OffloadArray.pow])
    (self : OffloadArray) (sx : NDArray) (hx : self.array = some sx)
    (hs : sx.shape = self.shape) (freshBuf : Nat) :
    (∀ (o : OffloadArray) (oa : NDArray), o.array = some oa →
      (oa.shape ≠ self.shape →
        f self (.offl o) freshBuf =
          ([], .error (.valueError shapeMismatchMsg))) ∧
      (oa.shape = self.shape → o.dtype ≠ self.dtype →
        f self (.offl o) freshBuf =
          ([], .error (.valueError typeMismatchMsg)))) ∧
    (∀ a : NDArray,
      (a.shape ≠ self.shape →
        f self (.nda a) freshBuf =
          ([], .error (.valueError shapeMismatchMsg))) ∧
      (a.shape = self.shape → a.dtype ≠ self.dtype →
        f self (.nda a) freshBuf =
          ([], .error (.valueError typeMismatchMsg)))) := by
  simp only [List.mem_cons, List.not_mem_nil, or_false] at hf
  rcases hf with rfl | rfl | rfl | rfl <;>
    exact binop_validation_aux _ self sx hx hs freshBuf

/-- C2 witness: adding a foreign host array of shape `[3]` to the sample
handle of shape `[6]` fails with the shape-mismatch error and an empty
event trace. -/
theorem C2_binop_validation_witness :
    OffloadArray.add sampleOwner (.nda ⟨9, [3], DType.dint⟩) 5 =
      ([], .error (.valueError shapeMismatchMsg)) :=
  ((C2_binop_validation OffloadArray.add (List.Mem.head _) sampleOwner
      sampleHostArr rfl rfl 5).2 ⟨9, [3], DType.dint⟩).1 (by decide)

/-- C1: contrary to the claim, `reshape` can never return a view handle: the
constructor call inside `reshape` passes no `stream`, `__init__` asserts
`stream is not None`, and therefore every `reshape` whose new shape has the
right total size raises `AssertionError` instead of building the view
(`ravel` is still literally `reshape(self.size)`). -/
theorem C1_reshape_always_raises :
    (∀ (h : OffloadArray) (l : List Int), pyProd l = h.size →
      h.reshape l = ([], .error .assertionError)) ∧
    (∀ h : OffloadArray, h.ravel = h.reshape [h.size]) := by
  constructor
  · intro h l hl
    simp [OffloadArray.reshape, OffloadArray.init, hl]
  · intro h
    rfl

/-- C1 witness: reshaping the six-element sample handle to `[2, 3]` (equal
total size) raises `AssertionError`. -/
theorem C1_reshape_always_raises_witness :
    OffloadArray.reshape sampleOwner [2, 3] = ([], .error .assertionError) :=
  C1_reshape_always_raises.1 sampleOwner [2, 3] (by decide)

/-- Dispatch encoding produced by the common binary-operator body on the
three valid operand kinds. -/
theorem binop_dispatch_aux (k : String) (self : OffloadArray) (sx : NDArray)
    (hx : self.array = some sx) (hs : sx.shape = self.shape) (freshBuf : Nat) :
    (∀ (o : OffloadArray) (oa : NDArray), o.array = some oa →
      oa.shape = self.shape → o.dtype = self.dtype →
      ∃ (arr : NDArray) (res : OffloadArray),
        self.binop k (.offl o) freshBuf =
          ([.bufferAllocate self.stream arr,
            .invokeBinary k (map_data_types self.dtype) self.size self.array 1
              (.arr o.array) (rightInc (.offl o)) res.array 1], .ok res)) ∧
    (∀ a : NDArray, a.shape = self.shape → a.dtype = self.dtype →
      ∃ (arr : NDArray) (res : OffloadArray),
        self.binop k (.nda a) freshBuf =
          ([.bufferAllocate self.stream arr,
            .invokeBinary k (map_data_types self.dtype) self.size self.array 1
              (.nda a) (rightInc (.nda a)) res.array 1], .ok res)) ∧
    (∀ s : Scalar, s.ty = self.dtype →
      ∃ (arr : NDArray) (res : OffloadArray),
        self.binop k (.scalar s) freshBuf =
          ([.bufferAllocate self.stream arr,
            .invokeBinary k (map_data_types self.dtype) self.size self.array 1
              (.scal s) (rightInc (.scalar s)) res.array 1], .ok res)) := by
  refine ⟨?_, ?_, ?_⟩
  · intro o oa hoa hsh hdt
    have h1 : sx.shape = oa.shape := by rw [hs, hsh]
    have h2 : self.dtype = o.dtype := hdt.symm
    refine ⟨⟨freshBuf, self.shape, self.dtype⟩,
      .mk "C" self.dtype none self.device self.stream (pyProd self.shape)
        self.shape ((self.dtype.itemsize : Int) * pyProd self.shape)
        (some ⟨freshBuf, self.shape, self.dtype⟩) self.device, ?_⟩
    simp [OffloadArray.binop, OffloadArray.init, hx, hoa, h1, h2, rightInc]
  · intro a hsh hdt
    have h1 : sx.shape = a.shape := by rw [hs, hsh]
    have h2 : self.dtype = a.dtype := hdt.symm
    refine ⟨⟨freshBuf, self.shape, self.dtype⟩,
      .mk "C" self.dtype none self.device self.stream (pyProd self.shape)
        self.shape ((self.dtype.itemsize : Int) * pyProd self.shape)
        (some ⟨freshBuf, self.shape, self.dtype⟩) self.device, ?_⟩
    simp [OffloadArray.binop, OffloadArray.init, hx, h1, h2, rightInc]
  · intro s hty
    have h2 : self.dtype = s.ty := hty.symm
    refine ⟨⟨freshBuf, self.shape, self.dtype⟩,
      .mk "C" self.dtype none self.device self.stream (pyProd self.shape)
        self.shape ((self.dtype.itemsize : Int) * pyProd self.shape)
        (some ⟨freshBuf, self.shape, self.dtype⟩) self.device, ?_⟩
    simp [OffloadArray.binop, OffloadArray.init, hx, h2, rightInc]

/-- Existential form of `binop_dispatch_aux`, matching the shape of the C3
statement for one fixed kernel entry point. -/
theorem binop_dispatch_exists (k : String) (self : OffloadArray) (sx : NDArray)
    (hx : self.array = some sx) (hs : sx.shape = self.shape) (freshBuf : Nat) :
    (∀ (o : OffloadArray) (oa : NDArray), o.array = some oa →
      oa.shape = self.shape → o.dtype = self.dtype →
      ∃ (k' : String) (arr : NDArray) (res : OffloadArray),
        self.binop k (.offl o) freshBuf =
          ([.bufferAllocate self.stream arr,
            .invokeBinary k' (map_data_types self.dtype) self.size self.array 1
              (.arr o.array) (rightInc (.offl o)) res.array 1], .ok res)) ∧
    (∀ a : NDArray, a.shape = self.shape → a.dtype = self.dtype →
      ∃ (k' : String) (arr : NDArray) (res : OffloadArray),
        self.binop k (.nda a) freshBuf =
          ([.bufferAllocate self.stream arr,
            .invokeBinary k' (map_data_types self.dtype) self.size self.array 1
              (.nda a) (rightInc (.nda a)) res.array 1], .ok res)) ∧
    (∀ s : Scalar, s.ty = self.dtype →
      ∃ (k' : String) (arr : NDArray) (res : OffloadArray),
        self.binop k (.scalar s) freshBuf =
          ([.bufferAllocate self.stream arr,
            .invokeBinary k' (map_data_types self.dtype) self.size self.array 1
              (.scal s) (rightInc (.scalar s)) res.array 1], .ok res)) := by
  obtain ⟨h1, h2, h3⟩ := binop_dispatch_aux k self sx hx hs freshBuf
  refine ⟨fun o oa hoa hsh hdt => ?_, fun a hsh hdt => ?_, fun s hty => ?_⟩
  · obtain ⟨arr, res, heq⟩ := h1 o oa hoa hsh hdt
    exact ⟨k, arr, res, heq⟩
  · obtain ⟨arr, res, heq⟩ := h2 a hsh hdt
    exact ⟨k, arr, res, heq⟩
  · obtain ⟨arr, res, heq⟩ := h3 s hty
    exact ⟨k, arr, res, heq⟩

/-- C3: every successful add/subtract/multiply/power dispatches a kernel
call whose left stride and result stride are 1, whose right stride is 1 for
an array-like right operand of matching shape and 0 for a scalar right
operand (`rightInc`), immediately after allocating the result handle. -/
theorem C3_dispatch_strides
    (f : OffloadArray → Operand → Nat → List Event × Except PyErr OffloadArray)
    (hf : f ∈ [OffloadArray.add, OffloadArray.sub, OffloadArray.mul,
      OffloadArray.pow])
    (self : OffloadArray) (sx : NDArray) (hx : self.array = some sx)
    (hs : sx.shape = self.shape) (freshBuf : Nat) :
    (∀ (o : OffloadArray) (oa : NDArray), o.array = some oa →
      oa.shape = self.shape → o.dtype = self.dtype →
      ∃ (k : String) (arr : NDArray) (res : OffloadArray),
        f self (.offl o) freshBuf =
          ([.bufferAllocate self.stream arr,
            .invokeBinary k (map_data_types self.dtype) self.size self.array 1
              (.arr o.array) (rightInc (.offl o)) res.array 1], .ok res)) ∧
    (∀ a : NDArray, a.shape = self.shape → a.dtype = self.dtype →
      ∃ (k : String) (arr : NDArray) (res : OffloadArray),
        f self (.nda a) freshBuf =
          ([.bufferAllocate self.stream arr,
            .invokeBinary k (map_data_types self.dtype) self.size self.array 1
              (.nda a) (rightInc (.nda a)) res.array 1], .ok res)) ∧
    (∀ s : Scalar, s.ty = self.dtype →
      ∃ (k : String) (arr : NDArray) (res : OffloadArray),
        f self (.scalar s) freshBuf =
          ([.bufferAllocate self.stream arr,
            .invokeBinary k (map_data_types self.dtype) self.size self.array 1
              (.scal s) (rightInc (.scalar s)) res.array 1], .ok res)) := by
  simp only [List.mem_cons, List.not_mem_nil, or_false] at hf
  rcases hf with rfl | rfl | rfl | rfl <;>
    exact binop_dispatch_exists _ self sx hx hs freshBuf

/-- C3 witness: adding the scalar `5` of type `int` to the sample handle
dispatches with left stride 1, right stride 0 and result stride 1. -/
theorem C3_dispatch_strides_witness :
    ∃ (k : String) (arr : NDArray) (res : OffloadArray),
      OffloadArray.add sampleOwner (.scalar ⟨DType.dint, 5⟩) 7 =
        ([.bufferAllocate sampleOwner.stream arr,
          .invokeBinary k (map_data_types sampleOwner.dtype) sampleOwner.size
            sampleOwner.array 1 (.scal ⟨DType.dint, 5⟩)
            (rightInc (.scalar ⟨DType.dint, 5⟩)) res.array 1], .ok res) :=
  (C3_dispatch_strides OffloadArray.add (List.Mem.head _) sampleOwner
    sampleHostArr rfl rfl 7).2.2 ⟨DType.dint, 5⟩ rfl

/-- C4 counterexample: the claim says the assigned range is clamped to
`[0, size)`, but `__setslice__` only takes `min(·, self.size)` of each
bound, so the lower bound `-1` reaches the dispatched kernel invocation
unchanged instead of being raised to `0`. -/
theorem C4_setslice_negative_bound :
    OffloadArray.setslice sampleOwner (-1) 2 (.offl sampleOwner2) =
      ([Event.invokeSetslice (map_data_types DType.dint) (-1) 2 sampleOwner
        sampleOwner2], .ok ()) ∧ (-1 : Int) < 0 := by
  constructor
  · rfl
  · decide

/-- C4 amended: `setslice` clamps each bound only from above, replacing it
by `min(bound, size)` and passing bounds below `0` through unchanged; the
dispatch itself is as claimed: a handle source goes straight to the native
range-assignment kernel, a foreign host array is first bound through the
stream, and a scalar source falls back to `fill`. -/
theorem C4_setslice_amended (self : OffloadArray) (i j : Int) :
    (∀ o : OffloadArray,
      self.setslice i j (.offl o) =
        ([.invokeSetslice (map_data_types self.dtype) (min i self.size)
          (min j self.size) self o], .ok ())) ∧
    (∀ a : NDArray,
      self.setslice i j (.nda a) =
        ([.bindArray self.stream a,
          .invokeSetslice (map_data_types self.dtype) (min i self.size)
            (min j self.size) self (self.stream.bindForeign a).2], .ok ())) ∧
    (∀ s : Scalar,
      self.setslice i j (.scalar s) =
        ((self.fill s).1, (self.fill s).2.map fun _ => ())) := by
  refine ⟨fun o => rfl, fun a => rfl, fun s => ?_⟩
  rcases hfr : self.fill s with ⟨evs, r⟩
  simp [OffloadArray.setslice, hfr]

/-- C5: for a dtype outside `int`/`float`/`complex`, `zero()` raises the
unsupported-type `ValueError` as the claim states, but `one()` instead
raises `NameError`, because its error branch formats the undefined name
`dtype`; for a supported dtype both fill with the respective identity. -/
theorem C5_zero_one_unsupported :
    OffloadArray.zero sampleOddDtype none =
      ([], .error (.valueError zeroUnsupportedMsg)) ∧
    OffloadArray.one sampleOddDtype none = ([], .error (.nameError "dtype")) ∧
    OffloadArray.zero sampleOwner none =
      ([.invokeFill 0 6 sampleOwner ⟨DType.dint, 0⟩], .ok sampleOwner) ∧
    OffloadArray.one sampleOwner none =
      ([.invokeFill 0 6 sampleOwner ⟨DType.dint, 1⟩], .ok sampleOwner) :=
  ⟨rfl, rfl, rfl, rfl⟩

/-- C6: reshaping to a shape whose element product differs from the
handle's size fails with the `ValueError` about the total size being
unchanged, with an empty event trace (no view handle is constructed). -/
theorem C6_reshape_size_mismatch (self : OffloadArray) (l : List Int)
    (h : pyProd l ≠ self.size) :
    self.reshape l = ([], .error (.valueError reshapeSizeMsg)) := by
  simp [OffloadArray.reshape, h]

/-- C6 witness: reshaping the six-element sample handle to `[4]` fails with
the size-mismatch `ValueError`. -/
theorem C6_reshape_size_mismatch_witness :
    OffloadArray.reshape sampleOwner [4] =
      ([], .error (.valueError reshapeSizeMsg)) :=
  C6_reshape_size_mismatch sampleOwner [4] (by decide)

/-- C7: destruction asks the handle's stream to release the device buffer
associated with the host mirror exactly when the handle has no base
(owner); destroying a view produces no release. -/
theorem C7_del_release_iff_owner (self : OffloadArray) :
    self.del = if self.base.isNone then
        [Event.bufferRelease self.stream self.array]
      else [] := by
  rcases self with ⟨o, d, b, dev, st, sz, sh, nb, a, lib⟩
  rcases b with _ | b <;> rfl

/-- C8: `assign_stream` on a stream bound to a different device fails with
the device-mismatch `ValueError` (no events, no new handle); on a stream of
the same device it returns the handle with only the `stream` attribute
replaced — buffer, base, device, shape and size are untouched and no stream
command is issued. -/
theorem C8_assign_stream_device_check (self : OffloadArray) (st : Stream) :
    (st.deviceId ≠ self.device →
      self.assign_stream st = ([], .error (.valueError deviceMismatchMsg))) ∧
    (st.deviceId = self.device →
      self.assign_stream st = ([], .ok (self.setStream st)) ∧
      (self.setStream st).stream = st ∧
      (self.setStream st).device = self.device ∧
      (self.setStream st).array = self.array ∧
      (self.setStream st).base = self.base ∧
      (self.setStream st).shape = self.shape ∧
      (self.setStream st).size = self.size) := by
  constructor
  · intro h
    simp [OffloadArray.assign_stream, h]
  · intro h
    refine ⟨by simp [OffloadArray.assign_stream, h], ?_, ?_, ?_, ?_, ?_, ?_⟩ <;>
    · rcases self with ⟨o, d, b, dev, st', sz, sh, nb, a, lib⟩
      rfl

/-- C8 witness: assigning a stream on device 1 to the device-0 sample
handle fails with the device-mismatch error, while assigning another
device-0 stream succeeds and rebinds the stream. -/
theorem C8_assign_stream_device_check_witness :
    OffloadArray.assign_stream sampleOwner ⟨1, 1⟩ =
      ([], .error (.valueError deviceMismatchMsg)) ∧
    OffloadArray.assign_stream sampleOwner ⟨5, 0⟩ =
      ([], .ok (sampleOwner.setStream ⟨5, 0⟩)) :=
  ⟨(C8_assign_stream_device_check sampleOwner ⟨1, 1⟩).1 (by decide),
   ((C8_assign_stream_device_check sampleOwner ⟨5, 0⟩).2 (by decide)).1⟩

/-- C9: a handle freshly constructed through the owner path satisfies
`size = product(shape)` and `nbytes = itemsize * size`, and a
single-integer shape `n` is promoted to the 1-tuple `[n]` with size `n`. -/
theorem C9_init_size_nbytes (l : List Int) (n : Int) (dtype : DType)
    (order : String) (dev : Nat) (st : Stream) (freshBuf : Nat) :
    (∃ a : OffloadArray,
      OffloadArray.init (.tuple l) dtype order true none (some dev) (some st)
          freshBuf =
        ([.bufferAllocate st ⟨freshBuf, l, dtype⟩], .ok a) ∧
      a.size = pyProd l ∧ a.shape = l ∧
      a.nbytes = (dtype.itemsize : Int) * a.size) ∧
    (∃ a : OffloadArray,
      OffloadArray.init (.int n) dtype order true none (some dev) (some st)
          freshBuf =
        ([.bufferAllocate st ⟨freshBuf, [n], dtype⟩], .ok a) ∧
      a.size = n ∧ a.shape = [n] ∧
      a.nbytes = (dtype.itemsize : Int) * a.size) :=
  ⟨⟨.mk order dtype none dev st (pyProd l) l
      ((dtype.itemsize : Int) * pyProd l) (some ⟨freshBuf, l, dtype⟩) dev,
    rfl, rfl, rfl, rfl⟩,
   ⟨.mk order dtype none dev st n [n]
      ((dtype.itemsize : Int) * n) (some ⟨freshBuf, [n], dtype⟩) dev,
    rfl, rfl, rfl, rfl⟩⟩

/-- C10: `update_device` returns `None` while `update_host` returns the
handle itself, so only device-to-host synchronization can be chained. -/
theorem C10_update_return_values (self : OffloadArray) :
    self.update_device.2 = none ∧ self.update_host.2 = some self :=
  ⟨rfl, rfl⟩

end PyMIC
